import Mathlib

/-!
Verification development for the fagent repository (per-host agent with an
HAProxy admin-socket client, pluggable discovery and control plugins).

Python strings are embedded as `List Char`; Python `str` helper methods
(`strip`, `lower`, `split`, `rsplit`, `int(...)`) are modelled explicitly
below.  Fallible Python code (raising exceptions) is embedded with `Except`.
`pathlib.Path` objects are modelled by the string they were constructed from
(pathlib's display normalisation is out of scope).  Python `dict`s built once
by insertion are modelled as association lists in insertion order (Python
dicts preserve insertion order; keys are unique).
-/

namespace Fagent

instance {ε α : Type} [DecidableEq ε] [DecidableEq α] : DecidableEq (Except ε α) := by
  intro x y
  cases x <;> cases y
  case ok.ok a b => exact if h : a = b then .isTrue (by rw [h]) else .isFalse (by simp [h])
  case error.error a b => exact if h : a = b then .isTrue (by rw [h]) else .isFalse (by simp [h])
  all_goals exact .isFalse (by simp)

/-- ASCII whitespace recognised by Python `str.strip()` (the further Unicode
whitespace Python also strips does not occur in any input considered here). -/
def pyIsSpace (c : Char) : Bool :=
  c = ' ' || c = '\t' || c = '\n' || c = '\r' || c = '\x0b' || c = '\x0c'

/-- Python `str.strip()`: drop leading and trailing whitespace. -/
def pyStrip (l : List Char) : List Char :=
  ((l.dropWhile pyIsSpace).reverse.dropWhile pyIsSpace).reverse

/-- Python `str.lower()` restricted to ASCII letters. -/
def pyLower (l : List Char) : List Char :=
  l.map (fun c => if 'A' ≤ c && c ≤ 'Z' then Char.ofNat (c.toNat + 32) else c)

/-- Python `s.split(sep)` for a one-character separator: split on every
occurrence, keeping empty pieces; the result is never empty. -/
def splitSep (sep : Char) : List Char → List (List Char)
  | [] => [[]]
  | c :: cs =>
    if c = sep then [] :: splitSep sep cs
    else
      match splitSep sep cs with
      | [] => [[c]]
      | a :: rest => (c :: a) :: rest

/-- Split at the first occurrence of `sep`, if any (`s.split(sep, 1)`). -/
def splitFirst (sep : Char) : List Char → Option (List Char × List Char)
  | [] => none
  | c :: cs =>
    if c = sep then some ([], cs)
    else (splitFirst sep cs).map (fun p => (c :: p.1, p.2))

/-- Python `s.rsplit(sep, 1)`: split at the last occurrence of `sep`. -/
def rsplitLast (sep : Char) (l : List Char) : Option (List Char × List Char) :=
  (splitFirst sep l.reverse).map (fun p => (p.2.reverse, p.1.reverse))

/-- Digit run of Python `int(...)`: one or more decimal digits, with single
underscores allowed between digits, accumulating the value. `prevDigit`
records whether the previous character was a digit (underscores may neither
start, end, repeat, nor begin the run). -/
def pyDigitsAux (acc : Nat) (prevDigit : Bool) : List Char → Option Nat
  | [] => if prevDigit then some acc else none
  | c :: cs =>
    if c.isDigit then pyDigitsAux (acc * 10 + (c.toNat - 48)) true cs
    else if c = '_' then
      if prevDigit then pyDigitsAux acc false cs else none
    else none

/-- Python `int(s)` on a string: optional surrounding whitespace, optional
sign, then a decimal digit run (§ `pyDigitsAux`); `none` models the
`ValueError` raised on any other input. -/
def pyIntParse (l : List Char) : Option Int :=
  match pyStrip l with
  | '+' :: rest => (pyDigitsAux 0 false rest).map Int.ofNat
  | '-' :: rest => (pyDigitsAux 0 false rest).map (fun n => -(n : Int))
  | rest => (pyDigitsAux 0 false rest).map Int.ofNat

/-- Python `needle in hay` substring test. -/
def containsSub (needle : List Char) : List Char → Bool
  | [] => needle.isEmpty
  | c :: cs => List.isPrefixOf needle (c :: cs) || containsSub needle cs

/-- First-match association-list lookup, modelling `d[k]` / `k in d` on a
Python dict with unique keys. -/
def lookupA {α : Type} (l : List (String × α)) (k : String) : Option α :=
  match l with
  | [] => none
  | (k', v) :: rest => if k' = k then some v else lookupA rest k

/-! ## plugins/haproxy_client.py — `HAProxyClient._parse_socket_path` -/

/-- Result of `_parse_socket_path`: `('unix', Path)` or `('tcp4', (host, port))`.
The `Path` payload is the construction string. -/
inductive SocketAddr where
  | unix (path : List Char)
  | tcp4 (host : List Char) (port : Int)
  deriving DecidableEq, Repr

/-- The two `raise HAProxyConnectionError` sites of `_parse_socket_path`:
missing `:` after `ipv4@`, and a port that is non-numeric or out of range
(the spec files both under ParseError — pure, no I/O attempted). -/
inductive AddrParseError where
  | invalidFormat
  | invalidPort
  deriving DecidableEq, Repr

def ipv4Marker : List Char := ['i', 'p', 'v', '4', '@']

/-- `HAProxyClient._parse_socket_path` (haproxy_client.py lines 60-104):
strip the input; a string starting with `ipv4@` must be `host:port` with the
split at the last `:` and a decimal port in [1, 65535]; any other string is a
Unix-socket path. -/
def parse_socket_path (socket_path : List Char) : Except AddrParseError SocketAddr :=
  let sp := pyStrip socket_path
  if List.isPrefixOf ipv4Marker sp then
    let address_str := sp.drop 5
    if address_str.contains ':' = false then
      .error .invalidFormat
    else
      match rsplitLast ':' address_str with
      | none => .error .invalidFormat
      | some (host, port_str) =>
        match pyIntParse port_str with
        | none => .error .invalidPort
        | some port =>
          if 1 ≤ port ∧ port ≤ 65535 then .ok (.tcp4 host port)
          else .error .invalidPort
  else
    .ok (.unix sp)

/-! ## plugins/haproxy_client.py — `HAProxyClient.set_server_state` -/

/-- Exceptions of the client layer: `ValueError` (invalid state literal),
`HAProxyCommandError`, `HAProxyConnectionError`.  Message texts are abridged
(no quote characters), their routing is modelled exactly. -/
inductive HAErr where
  | valueError (msg : String)
  | commandError (msg : String)
  | connectionError (msg : String)
  deriving DecidableEq, Repr

def HAErr.msg : HAErr → String
  | .valueError m => m
  | .commandError m => m
  | .connectionError m => m

/-- `HAProxyClient.VALID_STATES`. -/
def VALID_STATES : List String := ["ready", "drain", "maint"]

/-- Observable outcome of one `set_server_state` call: the commands actually
handed to `_send_command` (in order), and the return value or exception. -/
structure SSOutcome where
  sent : List String
  result : Except HAErr Bool
  deriving DecidableEq, Repr

/-- `HAProxyClient.set_server_state` (haproxy_client.py lines 344-388).  The
transport is abstracted by `resp`: what `_send_command` would return (`.ok`)
or raise (`.error`) for the single state-set command.  Validation of the
state literal happens before the transport is consulted; on transport
success a non-empty response containing case-insensitive `error` or
`invalid` is an in-band command failure; `HAProxyCommandError` is re-raised
unchanged and any other exception is wrapped into `HAProxyCommandError`. -/
def set_server_state (resp : Except HAErr String)
    (backend_name server_name state : String) : SSOutcome :=
  if state ∉ VALID_STATES then
    { sent := [],
      result := .error (.valueError
        ("Invalid state " ++ state ++ ". Allowed values: ready, drain, maint")) }
  else
    let command := "set server " ++ backend_name ++ "/" ++ server_name ++ " state " ++ state
    match resp with
    | .error (.commandError m) =>
      { sent := [command], result := .error (.commandError m) }
    | .error e =>
      { sent := [command],
        result := .error (.commandError
          ("Failed to set server state " ++ backend_name ++ "/" ++ server_name
            ++ ": " ++ e.msg)) }
    | .ok response =>
      if pyStrip response.data ≠ [] then
        if containsSub "error".data (pyLower response.data)
            || containsSub "invalid".data (pyLower response.data) then
          { sent := [command],
            result := .error (.commandError ("HAProxy error: " ++ response)) }
        else
          { sent := [command], result := .ok true }
      else
        { sent := [command], result := .ok true }

/-! ## plugins/haproxy_client.py — `HAProxyClient._parse_csv_response` -/

/-- `HAProxyClient._parse_csv_response` (haproxy_client.py lines 205-242):
strip and split the response into lines; the first line must start with `#`;
its tail from position 2 splits on `,` into headers; every further non-empty
line not starting with `#` splits on `,`, is dropped when its field count
differs from the header count, and otherwise is zipped against the headers.
The per-row `dict(zip(headers, values))` is modelled as the zipped
association list (duplicate header names do not occur in the inputs
considered). The function is total: no input makes it throw. -/
def parse_csv_response (response : List Char) : List (List (List Char × List Char)) :=
  let lines := splitSep '\n' (pyStrip response)
  match lines with
  | [] => []
  | header_line :: rest =>
    if header_line.head? ≠ some '#' then []
    else
      let headers := (splitSep ',' (header_line.drop 2)).map pyStrip
      rest.filterMap (fun line =>
        if line.isEmpty then none
        else if line.head? = some '#' then none
        else
          let values := (splitSep ',' line).map pyStrip
          if values.length ≠ headers.length then none
          else some (headers.zip values))

/-! ## discovery.py — `DiscoveryManager.run_discovery` -/

/-- `DiscoveryManager.run_discovery` (discovery.py lines 47-57).  Each
registered discoverer is abstracted by what its `discover()` call does:
return a list of applications (`.ok`) or raise (`.error`).  The loop extends
the accumulator with each successful result and logs (drops) each failure;
the function is total — no plugin exception escapes. -/
def run_discovery {α ε : Type} (discoverers : List (Except ε (List α))) : List α :=
  discoverers.foldl
    (fun all_apps d =>
      match d with
      | .ok apps => all_apps ++ apps
      | .error _ => all_apps)
    []

/-! ## control.py / server.py — GET dispatch to a controller -/

/-- Response envelope `{success, status_code, data, message, error}` produced
by controllers (haproxy_controller.py `_success_response` / `_error_response`). -/
structure RespEnv where
  success : Bool
  status_code : Nat
  data : Option (List (String × String))
  message : Option String
  error : Option String
  deriving DecidableEq, Repr

/-- `HAProxyController._success_response` (status_code left at its default 200). -/
def success_response (data : List (String × String)) (message : Option String) : RespEnv :=
  { success := true, status_code := 200, data := some data, message := message, error := none }

/-- `HAProxyController._error_response`. -/
def error_response (error : String) (status_code : Nat) : RespEnv :=
  { success := false, status_code := status_code, data := none, message := none, error := some error }

/-- The one exception the dispatch model can see from `handle_get`:
the `NotImplementedError` raised by `AbstractController.handle_get`. -/
inductive PyExc where
  | notImplementedError (msg : String)
  deriving DecidableEq, Repr

def PyExc.msg : PyExc → String
  | .notImplementedError m => m

/-- A control plugin as the dispatcher sees it: its name and, when the class
overrides `handle_get`, that override (overrides are modelled as total). -/
structure PyController where
  name : String
  handleGetImpl : Option (List String → List (String × String) → RespEnv)

/-- Python `hasattr(controller, 'handle_get')`: always true, because the base
class `AbstractController` itself defines `handle_get` (control.py lines
42-64), whether or not the concrete controller overrides it. -/
def hasattr_handle_get (_ : PyController) : Bool := true

/-- Calling `controller.handle_get(...)`: run the override when present,
otherwise the inherited base method raises
`NotImplementedError(f"Controller {name} does not support GET requests")`. -/
def call_handle_get (c : PyController) (path_parts : List String)
    (query_params : List (String × String)) : Except PyExc RespEnv :=
  match c.handleGetImpl with
  | some f => .ok (f path_parts query_params)
  | none => .error (.notImplementedError
      ("Controller " ++ c.name ++ " does not support GET requests"))

/-- HTTP-level outcome of `AgentRequestHandler.do_GET`: a JSON reply carrying
a controller envelope, or `_send_error_response(status, message)`. -/
inductive HttpOut where
  | reply (status : Nat) (body : RespEnv)
  | err (status : Nat) (message : String)
  deriving DecidableEq, Repr

/-- The controller-dispatch part of `AgentRequestHandler.do_GET` (server.py
lines 155-194), after the controller has been resolved: if
`hasattr(controller, 'handle_get')` call it — replying with its envelope, or
with a 500 `Internal error: ...` when it raises — and otherwise answer 405
`... does not support GET requests`. -/
def do_get_dispatch (c : PyController) (resource_path : List String)
    (query_params : List (String × String)) : HttpOut :=
  if hasattr_handle_get c then
    match call_handle_get c resource_path query_params with
    | .ok result => .reply result.status_code result
    | .error e => .err 500 ("Internal error: " ++ e.msg)
  else
    .err 405 ("Controller " ++ c.name ++ " does not support GET requests")

/-! ## controllers/haproxy_controller.py -/

/-- `HAProxyController._initialize_clients` (haproxy_controller.py lines
35-75), specialised to the string-typed configuration: the list of
`(name, socket_path)` pairs handed to `_add_client`, in order.  A non-empty
configuration splits on `,`; each stripped entry containing `:` splits once
on the first `:` into name and socket path (both stripped again); entries
without `:` are skipped.  An empty (falsy) configuration registers
`('default', HAPROXY_SOCKET_PATH)`. -/
def initialize_clients (instances_config : String) (haproxy_socket_path : String) :
    List (String × String) :=
  if instances_config ≠ "" then
    (splitSep ',' instances_config.data).filterMap (fun raw =>
      let instance_def := pyStrip raw
      match splitFirst ':' instance_def with
      | some (name, socket_path) =>
        some (String.mk (pyStrip name), String.mk (pyStrip socket_path))
      | none => none)
  else
    [("default", haproxy_socket_path)]

/-- `HAProxyController._get_client` (haproxy_controller.py lines 101-133)
over the registry `self.clients`, modelled as an insertion-ordered
association list.  A falsy instance name (None or empty) resolves to the
client registered under `default` when present, else to the first registered
client when any exists, else raises; a named lookup returns the exact match
or raises a not-found error listing the registered names. -/
def get_client {α : Type} (clients : List (String × α))
    (instance_name : Option String) : Except String α :=
  let falsy := match instance_name with
    | none => true
    | some s => s = ""
  if falsy then
    match lookupA clients "default" with
    | some c => .ok c
    | none =>
      match clients with
      | [] => .error "Нет доступных HAProxy инстансов"
      | (_, c) :: _ => .ok c
  else
    let n := instance_name.getD ""
    match lookupA clients n with
    | some c => .ok c
    | none =>
      .error ("HAProxy инстанс " ++ n ++ " не найден. Доступные инстансы: "
        ++ String.intercalate ", " (clients.map Prod.fst))

/-- `instance_name or 'default'` (Python truthiness on the optional name). -/
def instanceOrDefault : Option String → String
  | none => "default"
  | some s => if s = "" then "default" else s

/-- A registered HAProxy client as `handle_action` observes it: the outcome
`_send_command` would produce for the state-set command. -/
structure ClientModel where
  resp : Except HAErr String

/-- `HAProxyController.handle_action` (haproxy_controller.py lines 217-315):
body validation, action validation against `VALID_STATES`, path-shape
validation with optional leading instance segment, client resolution
(`ValueError` → 400), then `set_server_state`; a truthy return builds the
success envelope, a falsy return the 500 envelope, and the exception
handlers map `ValueError` → 400, `HAProxyCommandError` → 502,
`HAProxyConnectionError` → 503. -/
def handle_action (clients : List (String × ClientModel))
    (action_path : List String) (body : List (String × String)) : RespEnv :=
  match lookupA body "action" with
  | none => error_response "Поле action обязательно в теле запроса" 400
  | some action =>
    if action ∉ VALID_STATES then
      error_response ("Невалидный action " ++ action ++ ". Допустимые: ready, drain, maint") 400
    else if action_path.length < 5 then
      error_response "Неполный путь запроса" 400
    else
      let instOff : Option String × Nat :=
        if action_path.head? = some "backends" then (none, 0) else (action_path.head?, 1)
      let remaining_path := action_path.drop instOff.2
      if remaining_path.length ≠ 5 then
        error_response "Неверная структура пути" 400
      else if remaining_path.getD 0 "" ≠ "backends" ∨ remaining_path.getD 2 "" ≠ "servers"
          ∨ remaining_path.getD 4 "" ≠ "action" then
        error_response "Ожидается путь: /backends/backend/servers/server/action" 400
      else
        let backend_name := remaining_path.getD 1 ""
        let server_name := remaining_path.getD 3 ""
        match get_client clients instOff.1 with
        | .error e => error_response e 400
        | .ok client =>
          match (set_server_state client.resp backend_name server_name action).result with
          | .ok success =>
            if success then
              success_response
                [("instance", instanceOrDefault instOff.1), ("backend", backend_name),
                 ("server", server_name), ("action", action), ("status", "completed")]
                (some ("Состояние сервера успешно изменено на " ++ action))
            else
              error_response "Не удалось изменить состояние сервера" 500
          | .error (.valueError m) => error_response m 400
          | .error (.commandError m) => error_response ("Ошибка HAProxy: " ++ m) 502
          | .error (.connectionError m) => error_response ("Ошибка подключения к HAProxy: " ++ m) 503

/-! ## Helper lemmas -/

lemma dropWhile_eq_self_of_head {p : Char → Bool} {l : List Char}
    (h : ∀ c, l.head? = some c → p c = false) : l.dropWhile p = l := by
  cases l with
  | nil => rfl
  | cons c t => simp [List.dropWhile_cons, h c rfl]

lemma pyStrip_eq_self {l : List Char}
    (h1 : ∀ c, l.head? = some c → pyIsSpace c = false)
    (h2 : ∀ c, l.getLast? = some c → pyIsSpace c = false) : pyStrip l = l := by
  unfold pyStrip
  rw [dropWhile_eq_self_of_head h1,
    dropWhile_eq_self_of_head (fun c hc => h2 c (by rwa [List.head?_reverse] at hc))]
  exact List.reverse_reverse l

lemma mem_of_getLast?_eq {l : List Char} {c : Char} (h : l.getLast? = some c) : c ∈ l := by
  obtain ⟨hne, rfl⟩ := List.mem_getLast?_eq_getLast (Option.mem_def.mpr h)
  exact List.getLast_mem hne

lemma splitFirst_append {sep : Char} {a : List Char} (b : List Char)
    (h : ∀ c ∈ a, c ≠ sep) : splitFirst sep (a ++ sep :: b) = some (a, b) := by
  induction a with
  | nil => simp [splitFirst]
  | cons c t ih =>
    have hc : c ≠ sep := h c (by simp)
    have ih' := ih (fun x hx => h x (by simp [hx]))
    simp [List.cons_append, splitFirst, hc, ih']

lemma rsplitLast_append (xs ys : List Char) (hr : ∀ c ∈ ys, c ≠ ':') :
    rsplitLast ':' (xs ++ ':' :: ys) = some (xs, ys) := by
  unfold rsplitLast
  have hrev : (xs ++ ':' :: ys).reverse = ys.reverse ++ ':' :: xs.reverse := by simp
  rw [hrev, splitFirst_append xs.reverse (fun c hc => hr c (List.mem_reverse.mp hc))]
  simp

lemma strip_of_marker_form (host port_str : List Char)
    (hp : ∀ c ∈ port_str, pyIsSpace c = false) :
    pyStrip (ipv4Marker ++ (host ++ ':' :: port_str)) = ipv4Marker ++ (host ++ ':' :: port_str) := by
  apply pyStrip_eq_self
  · intro c hc
    simp [ipv4Marker] at hc
    subst hc
    decide
  · intro c hc
    rw [List.getLast?_append_of_ne_nil _ (by simp),
      List.getLast?_append_of_ne_nil _ (by simp)] at hc
    rcases List.mem_cons.mp (mem_of_getLast?_eq hc) with rfl | hmem
    · decide
    · exact hp c hmem

/-! ## Claim theorems -/

/-- C3: for every address of the form `ipv4@host:port` — with `port` the part
after the last `:`, hence colon-free (and whitespace-free so Python's
outer `strip` is inert) — if the port is decimal (Python `int` succeeds) with
value in [1, 65535], parsing succeeds and round-trips the host and the port
exactly; if the port is non-numeric (`int` raises) or its value lies outside
[1, 65535], parsing fails with a parse error.  The parse function is pure:
no I/O is modelled or needed. -/
theorem c3_tcp_address_parse (host port_str : List Char)
    (hp : ∀ c ∈ port_str, c ≠ ':' ∧ pyIsSpace c = false) :
    (∀ p : Int, pyIntParse port_str = some p → 1 ≤ p → p ≤ 65535 →
      parse_socket_path (ipv4Marker ++ (host ++ ':' :: port_str))
        = .ok (.tcp4 host p))
    ∧ (pyIntParse port_str = none →
      parse_socket_path (ipv4Marker ++ (host ++ ':' :: port_str))
        = .error .invalidPort)
    ∧ (∀ p : Int, pyIntParse port_str = some p → (p < 1 ∨ 65535 < p) →
      parse_socket_path (ipv4Marker ++ (host ++ ':' :: port_str))
        = .error .invalidPort) := by
  have hstrip := strip_of_marker_form host port_str (fun c hc => (hp c hc).2)
  have hpre : List.isPrefixOf ipv4Marker (ipv4Marker ++ (host ++ ':' :: port_str)) = true :=
    List.isPrefixOf_iff_prefix.mpr (List.prefix_append _ _)
  have hdrop : (ipv4Marker ++ (host ++ ':' :: port_str)).drop 5 = host ++ ':' :: port_str := rfl
  have hcont : (host ++ ':' :: port_str).contains ':' = true := by simp
  have hsplit := rsplitLast_append host port_str (fun c hc => (hp c hc).1)
  refine ⟨?_, ?_, ?_⟩
  · intro p hparse h1 h2
    simp only [parse_socket_path, hstrip, hpre, if_true, hdrop, hcont, hsplit, hparse]
    simp [h1, h2]
  · intro hparse
    simp only [parse_socket_path, hstrip, hpre, if_true, hdrop, hcont, hsplit, hparse]
    simp
  · intro p hparse hout
    simp only [parse_socket_path, hstrip, hpre, if_true, hdrop, hcont, hsplit, hparse]
    have : ¬(1 ≤ p ∧ p ≤ 65535) := by omega
    simp [this]

/-- Witness for C3 at `ipv4@192.168.1.15:7777`. -/
theorem c3_tcp_address_parse_witness :
    parse_socket_path (ipv4Marker ++ ("192.168.1.15".data ++ ':' :: "7777".data))
      = .ok (.tcp4 "192.168.1.15".data 7777) :=
  (c3_tcp_address_parse "192.168.1.15".data "7777".data (by decide)).1
    7777 (by decide) (by decide) (by decide)

/-- C4 counterexample: the claim says any string not starting with `ipv4@`
parses to a Unix address equal to the original input, but the code strips
surrounding whitespace first: `"/tmp/x.sock "` does not parse to itself —
it parses to the stripped path. -/
theorem c4_counterexample :
    parse_socket_path "/tmp/x.sock ".data ≠ .ok (.unix "/tmp/x.sock ".data)
    ∧ parse_socket_path "/tmp/x.sock ".data = .ok (.unix "/tmp/x.sock".data) := by
  decide

/-- C4 (amended): every string that is already whitespace-stripped and does
not start with `ipv4@` parses successfully to a Unix-socket address whose
path is the original string. -/
theorem c4_unix_parse (l : List Char)
    (hstrip : pyStrip l = l)
    (hpre : List.isPrefixOf ipv4Marker l = false) :
    parse_socket_path l = .ok (.unix l) := by
  simp [parse_socket_path, hstrip, hpre]

/-- Witness for C4 at `/var/run/haproxy.sock`. -/
theorem c4_unix_parse_witness :
    parse_socket_path "/var/run/haproxy.sock".data
      = .ok (.unix "/var/run/haproxy.sock".data) :=
  c4_unix_parse "/var/run/haproxy.sock".data (by decide) (by decide)

/-- C5: for any state literal outside {ready, drain, maint},
`set_server_state` fails with the validation error (`ValueError`) and issues
zero transport calls, whatever the transport would have answered. -/
theorem c5_invalid_state_no_io (resp : Except HAErr String)
    (backend_name server_name state : String) (h : state ∉ VALID_STATES) :
    (set_server_state resp backend_name server_name state).sent = []
    ∧ ∃ m, (set_server_state resp backend_name server_name state).result
        = .error (.valueError m) := by
  refine ⟨?_, ?_⟩ <;> simp [set_server_state, h]

/-- Witness for C5 at state `bogus`. -/
theorem c5_invalid_state_no_io_witness :
    (set_server_state (.ok "") "b" "s" "bogus").sent = []
    ∧ ∃ m, (set_server_state (.ok "") "b" "s" "bogus").result
        = .error (.valueError m) :=
  c5_invalid_state_no_io (.ok "") "b" "s" "bogus" (by decide)

/-- C6: for a valid state and a successful transport exchange,
`set_server_state` raises `HAProxyCommandError` if and only if the response
is non-empty after trimming and contains `error` or `invalid`
case-insensitively; otherwise it returns `True`. -/
theorem c6_inband_error_detection (backend_name server_name state r : String)
    (h : state ∈ VALID_STATES) :
    ((∃ m, (set_server_state (.ok r) backend_name server_name state).result
        = .error (.commandError m))
      ↔ (pyStrip r.data ≠ []
          ∧ (containsSub "error".data (pyLower r.data) = true
            ∨ containsSub "invalid".data (pyLower r.data) = true)))
    ∧ ((pyStrip r.data = []
        ∨ (containsSub "error".data (pyLower r.data) = false
          ∧ containsSub "invalid".data (pyLower r.data) = false)) →
      (set_server_state (.ok r) backend_name server_name state).result = .ok true) := by
  have hmem : ¬state ∉ VALID_STATES := fun hn => hn h
  by_cases hs : pyStrip r.data = []
  · have hres : (set_server_state (.ok r) backend_name server_name state).result = .ok true := by
      simp [set_server_state, hmem, hs]
    refine ⟨⟨fun ⟨m, hm⟩ => ?_, fun ⟨hne, _⟩ => absurd hs hne⟩, fun _ => hres⟩
    rw [hres] at hm
    cases hm
  · by_cases hmark : (containsSub "error".data (pyLower r.data)
        || containsSub "invalid".data (pyLower r.data)) = true
    · have hres : (set_server_state (.ok r) backend_name server_name state).result
          = .error (.commandError ("HAProxy error: " ++ r)) := by
        simp [set_server_state, hmem, hs, hmark]
      refine ⟨⟨fun _ => ⟨hs, by simpa [Bool.or_eq_true] using hmark⟩, fun _ => ⟨_, hres⟩⟩, ?_⟩
      intro hside
      rcases hside with h1 | ⟨he, hi⟩
      · exact absurd h1 hs
      · rw [he, hi] at hmark
        cases hmark
    · have hboth : containsSub "error".data (pyLower r.data) = false
          ∧ containsSub "invalid".data (pyLower r.data) = false := by
        constructor <;> [skip; skip] <;>
          simp only [Bool.or_eq_true, not_or, Bool.not_eq_true] at hmark <;>
          [exact hmark.1; exact hmark.2]
      have hres : (set_server_state (.ok r) backend_name server_name state).result = .ok true := by
        simp [set_server_state, hmem, hs, hboth.1, hboth.2]
      refine ⟨⟨fun ⟨m, hm⟩ => ?_, fun ⟨_, hor⟩ => ?_⟩, fun _ => hres⟩
      · rw [hres] at hm
        cases hm
      · rcases hor with h1 | h1
        · rw [h1] at hboth
          cases hboth.1
        · rw [h1] at hboth
          cases hboth.2

/-- Witness for C6 at state `drain` and response `error: no such server`. -/
theorem c6_inband_error_detection_witness :
    ∃ m, (set_server_state (.ok "error: no such server") "b" "s" "drain").result
      = .error (.commandError m) :=
  ((c6_inband_error_detection "b" "s" "drain" "error: no such server" (by decide)).1).mpr
    (by decide)

/-- Every result of `run_discovery` over up-front outcomes equals the
concatenation, in registration order, of the successful results. -/
lemma run_discovery_foldl {α ε : Type} (ds : List (Except ε (List α))) (acc : List α) :
    ds.foldl
      (fun all_apps d =>
        match d with
        | .ok apps => all_apps ++ apps
        | .error _ => all_apps) acc
    = acc ++ (ds.filterMap Except.toOption).flatten := by
  induction ds generalizing acc with
  | nil => simp
  | cons d ds ih =>
    cases d with
    | ok apps => simp [List.filterMap_cons, Except.toOption, ih]
    | error e => simp [List.filterMap_cons, Except.toOption, ih]

/-- C8: `run_discovery` returns exactly the concatenation of the results of
the plugins whose `discover()` succeeds, preserving the registration order of
plugins and each plugin's own order; failing plugins contribute nothing, and
since `run_discovery` is a total function no plugin exception escapes it. -/
theorem c8_run_discovery_concat {α ε : Type} (discoverers : List (Except ε (List α))) :
    run_discovery discoverers = (discoverers.filterMap Except.toOption).flatten := by
  unfold run_discovery
  exact run_discovery_foldl discoverers []

lemma parse_csv_response_cons (response header_line : List Char) (rows : List (List Char))
    (hsplit : splitSep '\n' (pyStrip response) = header_line :: rows) :
    parse_csv_response response
      = if header_line.head? ≠ some '#' then []
        else rows.filterMap (fun line =>
          if line.isEmpty then none
          else if line.head? = some '#' then none
          else if ((splitSep ',' line).map pyStrip).length
              ≠ ((splitSep ',' (header_line.drop 2)).map pyStrip).length then none
          else some ((((splitSep ',' (header_line.drop 2)).map pyStrip)).zip
            ((splitSep ',' line).map pyStrip))) := by
  unfold parse_csv_response
  rw [hsplit]

/-- C7: over a CSV statistics response whose stripped text splits into a
header line (starting with `#`) followed by data rows (each non-blank and not
a comment), parsing keeps, in order, exactly the rows whose comma-split field
count equals the header field count — zipped positionally against the headers
— and drops every row whose field count differs.  `parse_csv_response` is a
total function, so a malformed row can never make parsing throw. -/
theorem c7_csv_mismatched_rows_dropped (response header_line : List Char)
    (rows : List (List Char))
    (hsplit : splitSep '\n' (pyStrip response) = header_line :: rows)
    (hheader : header_line.head? = some '#')
    (hrows : ∀ l ∈ rows, l ≠ [] ∧ l.head? ≠ some '#') :
    parse_csv_response response
      = rows.filterMap (fun line =>
          if ((splitSep ',' line).map pyStrip).length
              = ((splitSep ',' (header_line.drop 2)).map pyStrip).length then
            some ((((splitSep ',' (header_line.drop 2)).map pyStrip)).zip
              ((splitSep ',' line).map pyStrip))
          else none) := by
  rw [parse_csv_response_cons response header_line rows hsplit,
    if_neg (fun hc => hc hheader)]
  apply List.filterMap_congr
  intro l hl
  obtain ⟨hne, hhash⟩ := hrows l hl
  rcases l with _ | ⟨c, t⟩
  · exact absurd rfl hne
  · rw [if_neg (by simp), if_neg hhash]
    by_cases hlen : ((splitSep ',' (c :: t)).map pyStrip).length
        = ((splitSep ',' (header_line.drop 2)).map pyStrip).length
    · rw [if_neg (fun hd => hd hlen), if_pos hlen]
    · rw [if_pos hlen, if_neg hlen]

/-- Witness for C7: header plus three rows, the middle one with a field count
mismatching the header; it is dropped while the surrounding rows parse. -/
theorem c7_csv_mismatched_rows_dropped_witness :
    parse_csv_response "# pxname,svname,status\nweb,BACKEND,UP\nbad,row\nweb,srv1,UP".data
      = ["web,BACKEND,UP".data, "bad,row".data, "web,srv1,UP".data].filterMap
          (fun line =>
            if ((splitSep ',' line).map pyStrip).length
                = ((splitSep ',' ("# pxname,svname,status".data.drop 2)).map pyStrip).length then
              some ((((splitSep ',' ("# pxname,svname,status".data.drop 2)).map pyStrip)).zip
                ((splitSep ',' line).map pyStrip))
            else none) := by
  have h := c7_csv_mismatched_rows_dropped
    "# pxname,svname,status\nweb,BACKEND,UP\nbad,row\nweb,srv1,UP".data
    "# pxname,svname,status".data
    ["web,BACKEND,UP".data, "bad,row".data, "web,srv1,UP".data]
    (by decide) (by decide) (by decide)
  rw [h]

/-- C1 counterexample: with two registered instances `a` and `b` and none
named `default`, unnamed resolution returns the first registered client
instead of raising a disambiguation error. -/
theorem c1_counterexample :
    get_client [("a", (0 : Nat)), ("b", 1)] none = Except.ok 0 := by decide

/-- C1 (amended): unnamed resolution returns the client registered under
`default` when one exists; otherwise, whenever at least one instance is
registered — however many — it returns the first registered client; it
raises only when no instance is registered at all. -/
theorem c1_resolve_unnamed {α : Type} (clients : List (String × α)) :
    (∀ c, lookupA clients "default" = some c → get_client clients none = .ok c)
    ∧ (∀ k v rest, lookupA clients "default" = none → clients = (k, v) :: rest →
        get_client clients none = .ok v)
    ∧ (clients = [] →
        get_client clients none = .error "Нет доступных HAProxy инстансов") := by
  refine ⟨?_, ?_, ?_⟩
  · intro c hc
    simp [get_client, hc]
  · intro k v rest hd hcl
    subst hcl
    simp [get_client, hd]
  · intro hcl
    subst hcl
    simp [get_client, lookupA]

/-- Witness for C1 (amended) with a single client registered as `default`. -/
theorem c1_resolve_unnamed_witness :
    get_client [("default", (5 : Nat))] none = Except.ok 5 :=
  (c1_resolve_unnamed [("default", (5 : Nat))]).1 5 (by decide)

/-- C2 (evaluation of the code at the failing inputs): the configuration
parser splits each entry on the first `:` — not on `=` as documented in
config.py and stated by the spec — so the shipped default value
`ipv4@192.168.1.1:7777` registers a nonsense instance named
`ipv4@192.168.1.1` with address `7777`; a bare colon-free address-spec is
silently skipped instead of configuring the `default` instance; and the
documented `name=address` pairs are mangled. -/
theorem c2_config_format_eval :
    initialize_clients "ipv4@192.168.1.1:7777" "/var/run/haproxy.sock"
      = [("ipv4@192.168.1.1", "7777")]
    ∧ initialize_clients "/var/run/haproxy.sock" "/var/run/haproxy.sock" = []
    ∧ initialize_clients "prod=ipv4@192.168.1.1:7777,test=ipv4@192.168.1.2:7777"
        "/var/run/haproxy.sock"
      = [("prod=ipv4@192.168.1.1", "7777"), ("test=ipv4@192.168.1.2", "7777")] := by
  decide

/-- C9 (evaluation of the code at the failing input): dispatching a GET
request to a controller that does not override `handle_get` yields the
generic 500 `Internal error: ...` response, because
`hasattr(controller, 'handle_get')` is always true — the base class defines
the method — so the dedicated 405 `does not support GET requests` branch can
never be reached for any controller. -/
theorem c9_get_unsupported_is_generic_500 :
    do_get_dispatch { name := "stub", handleGetImpl := none } ["backends"] []
      = .err 500 "Internal error: Controller stub does not support GET requests"
    ∧ ∀ (c : PyController) (path : List String) (q : List (String × String)) (m : String),
        do_get_dispatch c path q ≠ .err 405 m := by
  constructor
  · rfl
  · intro c path q m h
    cases himpl : c.handleGetImpl <;>
      simp [do_get_dispatch, hasattr_handle_get, call_handle_get, himpl] at h

lemma ss_never_false (resp : Except HAErr String) (b s st : String) :
    (set_server_state resp b s st).result ≠ Except.ok false := by
  unfold set_server_state
  by_cases h : st ∉ VALID_STATES
  · simp [h]
  · rcases resp with e | r
    · cases e <;> simp [h]
    · by_cases hs : pyStrip r.data = [] <;>
        by_cases hm : (containsSub "error".data (pyLower r.data)
          || containsSub "invalid".data (pyLower r.data)) = true <;>
        simp [h, hs, hm]

/-- C10: `set_server_state` never returns `False` — every execution path
either raises or returns `True`; consequently `handle_action` can never
produce the 500 envelope for a falsy return value, and whenever the routed
state-set call returns without raising, `handle_action` answers with the
success envelope. -/
theorem c10_state_set_never_false :
    (∀ (resp : Except HAErr String) (b s st : String),
      (set_server_state resp b s st).result ≠ Except.ok false)
    ∧ (∀ (clients : List (String × ClientModel)) (action_path : List String)
        (body : List (String × String)),
        handle_action clients action_path body
          ≠ error_response "Не удалось изменить состояние сервера" 500)
    ∧ (∀ (c : ClientModel) (b s act : String), act ∈ VALID_STATES →
        (set_server_state c.resp b s act).result = .ok true →
        handle_action [("default", c)] ["backends", b, "servers", s, "action"]
            [("action", act)]
          = success_response
              [("instance", "default"), ("backend", b), ("server", s),
               ("action", act), ("status", "completed")]
              (some ("Состояние сервера успешно изменено на " ++ act))) := by
  refine ⟨ss_never_false, ?_, ?_⟩
  · intro clients action_path body
    simp only [handle_action]
    repeat' split
    all_goals try simp [error_response, success_response]
    all_goals
      rename_i success heq hsucc
    all_goals
      have hfalse : success = false := by simpa using hsucc
    all_goals
      rw [hfalse] at heq
    all_goals
      exact ss_never_false _ _ _ _ heq
  · intro c b s act hmem hres
    simp [handle_action, get_client, lookupA, hmem, hres, instanceOrDefault]

/-- Witness for C10: a state-set whose transport returns the empty (success)
response produces the success envelope through `handle_action`. -/
theorem c10_state_set_never_false_witness :
    handle_action [("default", ⟨Except.ok ""⟩)] ["backends", "web", "servers", "srv1", "action"]
        [("action", "drain")]
      = success_response
          [("instance", "default"), ("backend", "web"), ("server", "srv1"),
           ("action", "drain"), ("status", "completed")]
          (some ("Состояние сервера успешно изменено на " ++ "drain")) :=
  c10_state_set_never_false.2.2 ⟨Except.ok ""⟩ "web" "srv1" "drain" (by decide) (by decide)

end Fagent

